import Mathlib

/-!
Shallow embedding of the h2o-kubernetes operator (Rust) for specification
verification.  The definitions mirror, module by module, the code in
src/operator/src/controller.rs, src/operator/src/clustering.rs,
src/operator/src/main.rs, src/deployment/src/pod.rs,
src/deployment/src/crd.rs, src/deployment/src/finalizer.rs and
src/operator/src/deployment/crd.rs.  Kubernetes and pod HTTP interactions are
modelled by explicit environments (functions giving the response of each
request) and by traces of issued side effects.
-/

/-- The discriminated error value of the deployment crate
(src/src/deployment/mod.rs, enum Error). -/
inductive Error
  | KubeError (msg : String)
  | UserError (msg : String)
  | Timeout (msg : String)
  | TemplateSerializationError (msg : String)
  | WatcherError (msg : String)
  | DeploymentError (msg : String)
deriving DecidableEq, Repr

/-- Object metadata of a Kubernetes resource, restricted to the fields the
operator reads or writes. -/
structure ObjectMeta where
  name : Option String
  nspace : Option String
  labels : List (String × String)
  finalizers : Option (List String)
  deletionTimestamp : Option String
deriving DecidableEq, Repr

/-- Resources allocated by each H2O pod (src/deployment/src/crd.rs, struct
Resources).  cpu is a u32, memoryPercentage an optional u8. -/
structure Resources where
  cpu : Nat
  memory : String
  memoryPercentage : Option Nat
deriving DecidableEq, Repr

/-- Custom image specification (src/deployment/src/crd.rs, struct CustomImage). -/
structure CustomImage where
  image : String
  command : Option String
deriving DecidableEq, Repr

/-- Specification of an H2O cluster (src/deployment/src/crd.rs, struct H2OSpec).
nodes is a u32. -/
structure H2OSpec where
  nodes : Nat
  version : Option String
  resources : Resources
  customImage : Option CustomImage
deriving DecidableEq, Repr

/-- A status condition (src/operator/src/deployment/crd.rs, struct Condition). -/
structure Condition where
  condType : String
  status : String
deriving DecidableEq, Repr

/-- Status of an H2O resource (src/operator/src/deployment/crd.rs, struct
H2OStatus). -/
structure H2OStatus where
  phase : Option String
  conditions : Option (List Condition)
deriving DecidableEq, Repr

/-- The H2O custom resource: metadata, spec and optional status. -/
structure H2O where
  metadata : ObjectMeta
  spec : H2OSpec
  status : Option H2OStatus
deriving DecidableEq, Repr

/-- The finalizer token of the deployment crate, the crate the controller is
linked against (src/deployment/src/finalizer.rs line 8). -/
def FINALIZER_NAME : String := "h2o3.h2o.ai"

/-- The finalizer token declared by the local deployment module of the operator
crate (src/operator/src/deployment/finalizer.rs line 8).  That module is not
declared in src/operator/src/main.rs and is not wired into the controller. -/
def OPERATOR_LOCAL_FINALIZER_NAME : String := "h2os.h2o.ai"

/-- The finalizers array of the merge patch issued by add_finalizer
(src/deployment/src/finalizer.rs lines 31-35); the literal in the json macro. -/
def add_finalizer_patch_tokens : List String := ["h2o3.h2o.ai"]

/-- Effect on the resource of the merge patch issued by add_finalizer: a JSON
merge patch replaces the whole finalizers array. -/
def add_finalizer (h2o : H2O) : H2O :=
  { h2o with metadata := { h2o.metadata with finalizers := some add_finalizer_patch_tokens } }

/-- Effect on the resource of the merge patch issued by remove_finalizer
(src/deployment/src/finalizer.rs lines 60-64): finalizers is patched to null. -/
def remove_finalizer (h2o : H2O) : H2O :=
  { h2o with metadata := { h2o.metadata with finalizers := none } }

/-- src/deployment/src/crd.rs, has_h2o3_finalizer: membership of
FINALIZER_NAME in metadata.finalizers. -/
def has_h2o3_finalizer (h2o : H2O) : Bool :=
  match h2o.metadata.finalizers with
  | some finalizers => finalizers.contains FINALIZER_NAME
  | none => false

/-- src/deployment/src/crd.rs, has_deletion_stamp. -/
def has_deletion_stamp (h2o : H2O) : Bool :=
  h2o.metadata.deletionTimestamp.isSome

/-- Action taken by the controller on an H2O resource event
(src/operator/src/controller.rs, enum ControllerAction). -/
inductive ControllerAction
  | Create
  | Delete
  | Verify
deriving DecidableEq, Repr

/-- src/operator/src/controller.rs, examine_h2o_for_actions. -/
def examine_h2o_for_actions (h2o : H2O) : ControllerAction :=
  let has_finalizer := has_h2o3_finalizer h2o
  let has_deletion_timestamp := has_deletion_stamp h2o
  if has_finalizer && has_deletion_timestamp then
    ControllerAction.Delete
  else if !has_finalizer && !has_deletion_timestamp then
    ControllerAction.Create
  else
    ControllerAction.Verify

/-- Default H2O API port (src/deployment/src/pod.rs line 15). -/
def H2O_DEFAULT_PORT : Nat := 54321

/-- Assisted clustering bootstrap port (src/deployment/src/pod.rs line 16). -/
def H2O_CLUSTERING_PORT : Nat := 8080

/-- An IP address as handled by the operator.  The code parses the pod IP
string with IpAddr::from_str and renders it back; the model keeps the textual
address and records only whether it is an IPv4 or an IPv6 address, which is
what the Display instance of SocketAddr depends on. -/
inductive IpAddr
  | v4 (addr : String)
  | v6 (addr : String)
deriving DecidableEq, Repr

/-- Textual form of the address itself (Display of IpAddr). -/
def ipAddrString : IpAddr → String
  | IpAddr.v4 addr => addr
  | IpAddr.v6 addr => addr

/-- Display of SocketAddr in the Rust standard library: an IPv4 socket address
renders as addr:port, an IPv6 one as the address in square brackets followed
by :port. -/
def socketAddrString : IpAddr → Nat → String
  | IpAddr.v4 addr, port => addr ++ ":" ++ toString port
  | IpAddr.v6 addr, port => "[" ++ addr ++ "]:" ++ toString port

/-- Status of a pod, restricted to the field the operator reads. -/
structure PodStatus where
  podIP : Option IpAddr
deriving DecidableEq, Repr

/-- The single container of an H2O pod, with the fields the POD_TEMPLATE
yaml (src/deployment/src/pod.rs lines 19-61) populates. -/
structure Container where
  name : String
  image : String
  command : Option String
  ports : List Nat
  env : List (String × String)
  limitsCpu : Nat
  limitsMemory : String
  requestsCpu : Nat
  requestsMemory : String
deriving DecidableEq, Repr

/-- A pod as rendered from POD_TEMPLATE and as observed from the cluster. -/
structure Pod where
  metadata : ObjectMeta
  container : Container
  restartPolicy : String
  status : Option PodStatus
deriving DecidableEq, Repr

/-- src/deployment/src/pod.rs, h2o_pod: the POD_TEMPLATE yaml with the
placeholders substituted, as the typed object it deserializes to.  The nodes
argument is accepted and unused, as the template contains no nodes
placeholder. -/
def h2o_pod (name deployment_label nspace docker_image : String)
    (command : Option String) (nodes : Nat) (memory : String) (num_cpu : Nat) : Pod :=
  { metadata :=
      { name := some name
        nspace := some nspace
        labels := [("app", deployment_label)]
        finalizers := none
        deletionTimestamp := none }
    container :=
      { name := name
        image := docker_image
        command := command
        ports := [54321, 54322, 8080]
        env := [("H2O_ASSISTED_CLUSTERING_API_PORT", "8080"),
                ("H2O_ASSISTED_CLUSTERING_REST", "True")]
        limitsCpu := num_cpu
        limitsMemory := memory
        requestsCpu := num_cpu
        requestsMemory := memory }
    restartPolicy := "Never"
    status := none }

/-- The fixed repository and tag separator of the official image
(src/deployment/src/pod.rs line 134, the official_image_temp string). -/
def OFFICIAL_IMAGE_BASE : String := "h2oai/h2o-open-source-k8s:"

/-- The launch command rendered for the official image
(src/deployment/src/pod.rs lines 156-157), as a function of the
MaxRAMPercentage value. -/
def official_command (memory_percentage : Nat) : String :=
  "[\"/bin/bash\", \"-c\", \"java -XX:+UseContainerSupport -XX:MaxRAMPercentage="
    ++ toString memory_percentage
    ++ " -cp /opt/h2oai/h2o-3/h2o.jar:/opt/h2o-clustering/h2o-clustering.jar water.H2OApp\"]"

/-- Image and command resolution at the top of create_pods
(src/deployment/src/pod.rs lines 140-164): a custom image overrides the
version; with a version the official image and command are used, with the
memory percentage defaulting to 50; with neither a UserError is returned. -/
def resolve_image_command (spec : H2OSpec) : Except Error (String × Option String) :=
  match spec.customImage with
  | some image => Except.ok (image.image, image.command)
  | none =>
    match spec.version with
    | some v =>
      Except.ok (OFFICIAL_IMAGE_BASE ++ v,
        some (official_command (spec.resources.memoryPercentage.getD 50)))
    | none =>
      Except.error (Error.UserError
        "Unable to create H2O Pods. Either H2O version or a complete custom image specification must be provided. None provided.")

/-- The pod submitted for index i by create_pods: named name-i and labelled
with the deployment name. -/
def rendered_pod (spec : H2OSpec) (deployment_name nspace image : String)
    (command : Option String) (i : Nat) : Pod :=
  h2o_pod (deployment_name ++ "-" ++ toString i) deployment_name nspace image command
    spec.nodes spec.resources.memory spec.resources.cpu

/-- A side effect issued against the Kubernetes API or a pod HTTP endpoint. -/
inductive Effect
  | createPod (pod : Pod)
  | deletePod (name : String)
  | deletePodsByLabel (label : String)
  | deleteService (name : String)
  | postFlatfile (ip : IpAddr) (body : String)
  | getClusterStatusPoll (ip : IpAddr)
  | patchPodLeaderLabel (podName : String) (value : String)
  | createLeaderService (name : String) (selectorValue : String)
  | patchFinalizers (name : String) (finalizers : Option (List String))
  | patchStatus (name : String) (status : H2OStatus)
deriving DecidableEq, Repr

/-- Environment for the pod adapter: the response of the API server to the
creation of pod number i (none is success, in which case the server echoes the
created pod) and to the compensating deletion of a pod of a given name. -/
structure PodApi where
  createResult : Nat → Option Error
  deleteResult : String → Option Error

/-- Result of one run of create_pods: the effects issued, in order, and the
value returned. -/
structure CreatePodsRun where
  effects : List Effect
  result : Except (List Error) (List Pod)
deriving Repr

/-- src/deployment/src/pod.rs, create_pods.  The submissions are issued for
indices 0 to nodes-1; buffer_unordered makes the per-pod results arrive in an
arbitrary completion order, modelled by the order argument (a permutation of
range nodes).  If every creation succeeded the created pods are returned;
otherwise a delete is issued for every successfully created pod, the responses
of those deletes are discarded, and the list of creation errors is returned. -/
def create_pods (api : PodApi) (order : List Nat) (spec : H2OSpec)
    (deployment_name nspace : String) : CreatePodsRun :=
  match resolve_image_command spec with
  | Except.error e => { effects := [], result := Except.error [e] }
  | Except.ok (image, command) =>
    let pod := fun i => rendered_pod spec deployment_name nspace image command i
    let createEffects := (List.range spec.nodes).map (fun i => Effect.createPod (pod i))
    let results : List (Except Error Pod) := order.map (fun i =>
      match api.createResult i with
      | none => Except.ok (pod i)
      | some e => Except.error e)
    let errors := results.filterMap (fun r =>
      match r with | Except.error e => some e | Except.ok _ => none)
    let successes := results.filterMap (fun r =>
      match r with | Except.ok p => some p | Except.error _ => none)
    if errors.isEmpty then
      { effects := createEffects, result := Except.ok successes }
    else
      let deleteEffects := successes.map (fun p =>
        Effect.deletePod (p.metadata.name.getD ""))
      let _compensationResults := successes.map (fun p =>
        api.deleteResult (p.metadata.name.getD ""))
      { effects := createEffects ++ deleteEffects, result := Except.error errors }

/-- The pods submitted for creation within a trace of effects. -/
def createdPodsOf (effects : List Effect) : List Pod :=
  effects.filterMap (fun e =>
    match e with | Effect.createPod p => some p | _ => none)

/-- The pod names a deletion was issued for within a trace of effects. -/
def deletedPodNamesOf (effects : List Effect) : List String :=
  effects.filterMap (fun e =>
    match e with | Effect.deletePod n => some n | _ => none)

/-- Result of one HTTP request to a pod: a response with a status code, or a
transport level error (the Err branch of the hyper client). -/
inductive HttpResult
  | ok (statusCode : Nat)
  | connectionError
deriving DecidableEq, Repr

/-- src/operator/src/clustering.rs, create_flatfile: each pod IP is rendered
as a socket address with port 54321 and the lines are joined with a newline. -/
def create_flatfile (pod_ips : List IpAddr) : String :=
  String.intercalate "\n"
    (pod_ips.map (fun pod_ip => socketAddrString pod_ip H2O_DEFAULT_PORT))

/-- Written from the words of the specification, for comparison with
create_flatfile: the newline-join of the strings ip:54321, one entry per
pod IP. -/
def spec_flatfile (pod_ips : List IpAddr) : String :=
  String.intercalate "\n"
    (pod_ips.map (fun pod_ip => ipAddrString pod_ip ++ ":54321"))

/-- src/operator/src/clustering.rs, send_flatfile: the flatfile is POSTed to
every pod; each response is unwrapped (a transport error is a panic, modelled
as none) and the returned boolean is the conjunction of status == 200 over all
pods. -/
def send_flatfile (pod_ips : List IpAddr) (resp : IpAddr → HttpResult) : Option Bool :=
  if pod_ips.any (fun ip =>
      match resp ip with
      | HttpResult.connectionError => true
      | HttpResult.ok _ => false) then
    none
  else
    some (pod_ips.all (fun ip =>
      match resp ip with
      | HttpResult.ok code => code == 200
      | HttpResult.connectionError => false))

/-- One round of the api-online gate of wait_clustering_api_online: every pod
must answer 204 (a transport error counts as not ready). -/
def all_pods_api_online_round (resp : IpAddr → HttpResult) (pod_ips : List IpAddr) : Bool :=
  pod_ips.all (fun ip =>
    match resp ip with
    | HttpResult.ok code => code == 204
    | HttpResult.connectionError => false)

/-- src/operator/src/clustering.rs, wait_clustering_api_online: probe all pods
once per round, with a one second sleep between rounds, until a round in which
every pod answers 204.  The loop is unbounded in the source; the fuel bounds
the number of rounds the model examines, and the result is the index of the
first all-204 round, if reached. -/
def wait_clustering_api_online (rounds : Nat → IpAddr → HttpResult)
    (pod_ips : List IpAddr) (r : Nat) : Nat → Option Nat
  | 0 => none
  | fuel + 1 =>
    if all_pods_api_online_round (rounds r) pod_ips then some r
    else wait_clustering_api_online rounds pod_ips (r + 1) fuel

/-- The JSON body of a 200 response of /cluster/status
(src/operator/src/clustering.rs, struct H2OClusterStatus). -/
structure H2OClusterStatus where
  leader_node : String
  healthy_nodes : List String
  unhealthy_nodes : List String
deriving DecidableEq, Repr

/-- Splitting of a character list at every occurrence of a separator, the
character-level counterpart of splitting a string on a one-character
separator. -/
def splitOnChar (sep : Char) : List Char → List (List Char)
  | [] => [[]]
  | c :: cs =>
    let rest := splitOnChar sep cs
    if c = sep then [] :: rest
    else
      match rest with
      | [] => [[c]]
      | r :: rs => (c :: r) :: rs

/-- The numeric value of a non-empty list of decimal digits, none otherwise. -/
def natOfDigits? (cs : List Char) : Option Nat :=
  if cs.isEmpty then none
  else
    cs.foldl
      (fun acc c => acc.bind (fun n =>
        if c.isDigit then some (n * 10 + (c.toNat - 48)) else none))
      (some 0)

/-- Parsing of a socket address string of the form ip:port, the shape the
leader_node field is parsed with (SocketAddr::from_str followed by reading the
ip); a malformed string is none, which the source unwraps (a panic). -/
def parse_socket_addr (s : String) : Option (String × Nat) :=
  match splitOnChar ':' s.data with
  | [ip, p] => (natOfDigits? p).map (fun port => (String.mk ip, port))
  | _ => none

/-- The sleep between two cluster-status polls in wait_h2o_clustered:
tokio::time::sleep(Duration::from_secs(1)) (src/operator/src/clustering.rs
line 155), in milliseconds. -/
def STATUS_POLL_SLEEP_MS : Nat := 1000

/-- The overall bound on the cluster-status poll:
tokio::time::timeout(Duration::from_secs(180), ...) around wait_h2o_clustered
(src/operator/src/clustering.rs line 48), in milliseconds. -/
def CLUSTERING_TIMEOUT_MS : Nat := 180000

/-- Number of poll attempts the 180 second timeout admits, at one 1000 ms
sleep after every non-200 response.  (Transport errors, which the source
retries without sleeping, are not modelled; the poll environment always
yields an HTTP response.) -/
def status_poll_attempt_limit : Nat := CLUSTERING_TIMEOUT_MS / STATUS_POLL_SLEEP_MS

/-- The polling loop of wait_h2o_clustered: attempt k receives the k-th
response (status code and body); the first 200 response ends the loop with its
body, any other code is followed by a sleep and a retry. -/
def wait_h2o_clustered_go (pollResp : Nat → Nat × H2OClusterStatus) (k : Nat) :
    Nat → Option H2OClusterStatus
  | 0 => none
  | fuel + 1 =>
    if (pollResp k).1 == 200 then some (pollResp k).2
    else wait_h2o_clustered_go pollResp (k + 1) fuel

/-- wait_h2o_clustered under its enclosing 180 second timeout: the body of the
first 200 response if one arrives within the admitted attempts, none (the
timeout elapsed) otherwise. -/
def wait_h2o_clustered_timeout (pollResp : Nat → Nat × H2OClusterStatus) :
    Option H2OClusterStatus :=
  wait_h2o_clustered_go pollResp 0 status_poll_attempt_limit

/-- Environment of cluster_pods: the pods delivered by the pod watch once all
have IPs, and the responses of the pod HTTP endpoints and of the two final
Kubernetes calls. -/
structure ClusteringEnv where
  clusteredPods : List Pod
  onlineRounds : Nat → IpAddr → HttpResult
  flatfileResp : IpAddr → HttpResult
  pollResp : Nat → Nat × H2OClusterStatus
  patchLeaderResult : Option Error
  createServiceResult : Option Error

/-- Outcome of cluster_pods: normal completion, a panic on one of its unwrap
and expect calls, or the api-online gate still looping when the fuel ran out. -/
inductive ClusterPodsOutcome
  | ok
  | panic
  | stuck
deriving DecidableEq, Repr

/-- The IPs of the watched pods, as read by cluster_pods; a pod without a
status or without an IP makes the corresponding expect call panic (none). -/
def pods_ips (pods : List Pod) : Option (List IpAddr) :=
  pods.mapM (fun p => p.status.bind (fun st => st.podIP))

/-- src/operator/src/clustering.rs, cluster_pods, from the point where the
watched pods are available: wait for every pod bootstrap API to answer 204,
POST the flatfile to every pod and discard the returned boolean, poll
/cluster/status of the first pod under the 180 s timeout and unwrap the
result, find and label the leader pod, and create the leader service. -/
def cluster_pods (env : ClusteringEnv) (pod_label : String) (apiOnlineFuel : Nat) :
    List Effect × ClusterPodsOutcome :=
  match pods_ips env.clusteredPods with
  | none => ([], ClusterPodsOutcome.panic)
  | some pod_ips =>
    match wait_clustering_api_online env.onlineRounds pod_ips 0 apiOnlineFuel with
    | none => ([], ClusterPodsOutcome.stuck)
    | some _ =>
      let flatfile := create_flatfile pod_ips
      let postEffects := pod_ips.map (fun ip => Effect.postFlatfile ip flatfile)
      match send_flatfile pod_ips env.flatfileResp with
      | none => (postEffects, ClusterPodsOutcome.panic)
      | some _allOk =>
        match pod_ips with
        | [] => (postEffects, ClusterPodsOutcome.panic)
        | ip0 :: _ =>
          let pollEffect := Effect.getClusterStatusPoll ip0
          match wait_h2o_clustered_timeout env.pollResp with
          | none => (postEffects ++ [pollEffect], ClusterPodsOutcome.panic)
          | some clusterStatus =>
            match parse_socket_addr clusterStatus.leader_node with
            | none => (postEffects ++ [pollEffect], ClusterPodsOutcome.panic)
            | some (leaderIp, _) =>
              match env.clusteredPods.find? (fun p =>
                  match p.status.bind (fun st => st.podIP) with
                  | some ip => ipAddrString ip == leaderIp
                  | none => false) with
              | none => (postEffects ++ [pollEffect], ClusterPodsOutcome.panic)
              | some leaderPod =>
                let labelEffect := Effect.patchPodLeaderLabel
                  (leaderPod.metadata.name.getD "") (pod_label ++ "-leader")
                match env.patchLeaderResult with
                | some _ => (postEffects ++ [pollEffect, labelEffect], ClusterPodsOutcome.panic)
                | none =>
                  let serviceEffect := Effect.createLeaderService pod_label (pod_label ++ "-leader")
                  match env.createServiceResult with
                  | some _ =>
                    (postEffects ++ [pollEffect, labelEffect, serviceEffect],
                      ClusterPodsOutcome.panic)
                  | none =>
                    (postEffects ++ [pollEffect, labelEffect, serviceEffect],
                      ClusterPodsOutcome.ok)

/-- src/operator/src/deployment/crd.rs, set_ready_condition: the status
written, as a function of the ready flag.  The phase is always Running and
the conditions list holds the single Ready condition with the stringified
flag. -/
def set_ready_condition_status (ready : Bool) : H2OStatus :=
  { phase := some "Running"
    conditions := some [{ condType := "Ready", status := toString ready }] }

/-- set_ready_condition as a transformation of the fetched resource: the
status field is replaced by set_ready_condition_status and the result is
patched back. -/
def set_ready_condition (h2o : H2O) (ready : Bool) : H2O :=
  { h2o with status := some (set_ready_condition_status ready) }

/-- The advisory rescheduling hint returned to the watch framework
(kube_runtime ReconcilerAction); requeue_after in seconds. -/
structure ReconcilerAction where
  requeue_after : Option Nat
deriving DecidableEq, Repr

/-- Outcome of one reconcile invocation: a returned action, a returned error,
a panic on an unwrap, or divergence in an unbounded wait. -/
inductive ReconcileOutcome
  | ok (action : ReconcilerAction)
  | err (e : Error)
  | panic
  | diverge
deriving DecidableEq, Repr

/-- Environment of one reconcile: the operator namespace and the responses of
every Kubernetes API call and pod HTTP call the reconcile may issue. -/
structure ReconcileEnv where
  nspace : String
  podApi : PodApi
  createOrder : List Nat
  clustering : ClusteringEnv
  apiOnlineFuel : Nat
  addFinalizerResult : Option Error
  setReadyResult : Option Error
  deleteServiceResult : Option Error
  listPodsResult : Option Error
  waitDeletedCompletes : Bool
  removeFinalizerResult : Option Error

/-- src/operator/src/controller.rs, create_h2o_deployment: create the pods;
on failure return DeploymentError; on success run the clustering protocol,
add the finalizer (unwrapped) and set the Ready condition (unwrapped), and
return an action with a 10 second requeue. -/
def create_h2o_deployment (env : ReconcileEnv) (h2o : H2O) :
    List Effect × ReconcileOutcome :=
  match h2o.metadata.name with
  | none =>
    ([], ReconcileOutcome.err (Error.UserError
      "Unable to create H2O deployment. No H2O name provided."))
  | some name =>
    let run := create_pods env.podApi env.createOrder h2o.spec name env.nspace
    match run.result with
    | Except.error _ => (run.effects, ReconcileOutcome.err (Error.DeploymentError ""))
    | Except.ok _pods =>
      let clusterRun := cluster_pods env.clustering name env.apiOnlineFuel
      match clusterRun.2 with
      | ClusterPodsOutcome.panic => (run.effects ++ clusterRun.1, ReconcileOutcome.panic)
      | ClusterPodsOutcome.stuck => (run.effects ++ clusterRun.1, ReconcileOutcome.diverge)
      | ClusterPodsOutcome.ok =>
        let finalizerEffect := Effect.patchFinalizers name (some add_finalizer_patch_tokens)
        match env.addFinalizerResult with
        | some _ => (run.effects ++ clusterRun.1 ++ [finalizerEffect], ReconcileOutcome.panic)
        | none =>
          let statusEffect := Effect.patchStatus name (set_ready_condition_status true)
          match env.setReadyResult with
          | some _ =>
            (run.effects ++ clusterRun.1 ++ [finalizerEffect, statusEffect],
              ReconcileOutcome.panic)
          | none =>
            (run.effects ++ clusterRun.1 ++ [finalizerEffect, statusEffect],
              ReconcileOutcome.ok { requeue_after := some 10 })

/-- src/operator/src/controller.rs, delete_h2o_deployment: delete the headless
service (unwrapped), issue the bulk pod delete by label (result discarded),
wait for the pods to be gone, remove the finalizer (error propagated), and
return an action with no requeue. -/
def delete_h2o_deployment (env : ReconcileEnv) (h2o : H2O) :
    List Effect × ReconcileOutcome :=
  match h2o.metadata.name with
  | none =>
    ([], ReconcileOutcome.err (Error.UserError
      "Unable to delete H2O deployment. No H2O name provided."))
  | some name =>
    match h2o.metadata.nspace with
    | none =>
      ([], ReconcileOutcome.err (Error.UserError
        "Unable to delete H2O deployment. No namespace provided."))
    | some _ =>
      let serviceEffect := Effect.deleteService name
      match env.deleteServiceResult with
      | some _ => ([serviceEffect], ReconcileOutcome.panic)
      | none =>
        let bulkEffect := Effect.deletePodsByLabel name
        match env.listPodsResult with
        | some _ => ([serviceEffect, bulkEffect], ReconcileOutcome.panic)
        | none =>
          if env.waitDeletedCompletes then
            let finalizerEffect := Effect.patchFinalizers name none
            match env.removeFinalizerResult with
            | some e => ([serviceEffect, bulkEffect, finalizerEffect], ReconcileOutcome.err e)
            | none =>
              ([serviceEffect, bulkEffect, finalizerEffect],
                ReconcileOutcome.ok { requeue_after := none })
          else
            ([serviceEffect, bulkEffect], ReconcileOutcome.diverge)

/-- src/operator/src/controller.rs, reconcile: route the event by
examine_h2o_for_actions.  The Create and Delete paths propagate errors with
the question mark operator, which discards the ReconcilerAction the helpers
return on success; the Verify path only logs.  Every successful reconcile
falls through to the single return of an action with a 5 second requeue. -/
def reconcile (env : ReconcileEnv) (h2o : H2O) : List Effect × ReconcileOutcome :=
  match examine_h2o_for_actions h2o with
  | ControllerAction.Create =>
    let run := create_h2o_deployment env h2o
    match run.2 with
    | ReconcileOutcome.ok _ => (run.1, ReconcileOutcome.ok { requeue_after := some 5 })
    | other => (run.1, other)
  | ControllerAction.Delete =>
    let run := delete_h2o_deployment env h2o
    match run.2 with
    | ReconcileOutcome.ok _ => (run.1, ReconcileOutcome.ok { requeue_after := some 5 })
    | other => (run.1, other)
  | ControllerAction.Verify =>
    ([], ReconcileOutcome.ok { requeue_after := some 5 })

/-- src/operator/src/controller.rs, error_policy: every reconciliation error
is rescheduled after 5 seconds. -/
def error_policy (_e : Error) : ReconcilerAction :=
  { requeue_after := some 5 }

/-- One version entry of a CustomResourceDefinition (k8s_openapi
CustomResourceDefinitionVersion), restricted to the fields the template sets. -/
structure CRDVersion where
  name : String
  served : Bool
  storage : Bool
deriving DecidableEq, Repr

/-- A CustomResourceDefinition, restricted to the fields the operator reads. -/
structure CustomResourceDefinition where
  name : String
  group : String
  versions : List CRDVersion
deriving DecidableEq, Repr

/-- src/deployment/src/crd.rs, construct_h2o_crd: the compiled-in
H2O_RESOURCE_TEMPLATE declares the single version v1beta with served and
storage true. -/
def construct_h2o_crd : CustomResourceDefinition :=
  { name := "h2os.h2o.ai"
    group := "h2o.ai"
    versions := [{ name := "v1beta", served := true, storage := true }] }

/-- src/deployment/src/crd.rs, spec_versions: the HashSet of the names of all
declared versions of the CRD; the served flag is not consulted. -/
def spec_versions (crd : CustomResourceDefinition) : Finset String :=
  (crd.versions.map (fun v => v.name)).toFinset

/-- Written from the words of the specification, for comparison with
spec_versions: the set of the names of the served versions declared on the
CRD. -/
def served_spec_versions (crd : CustomResourceDefinition) : Finset String :=
  ((crd.versions.filter (fun v => v.served)).map (fun v => v.name)).toFinset

/-- Outcome of the CRD bootstrap at process start. -/
inductive BootstrapOutcome
  | continueToController
  | exitProcess (code : Nat)
deriving DecidableEq, Repr

/-- src/operator/src/main.rs, ensure_crd_created, branch where get_current
found an existing CRD: the version-name sets of the existing CRD and of the
compiled-in one must be equal (the source additionally compares their
cardinalities); otherwise the process exits with code 1. -/
def ensure_crd_created_present (existing : CustomResourceDefinition) : BootstrapOutcome :=
  if spec_versions construct_h2o_crd = spec_versions existing
      ∧ (spec_versions existing).card = (spec_versions construct_h2o_crd).card then
    BootstrapOutcome.continueToController
  else
    BootstrapOutcome.exitProcess 1

/-! Concrete fixtures used by witnesses and counterexamples. -/

def sampleResources : Resources := { cpu := 1, memory := "256Mi", memoryPercentage := none }

def sampleSpec : H2OSpec :=
  { nodes := 1, version := some "latest", resources := sampleResources, customImage := none }

def sampleMeta : ObjectMeta :=
  { name := some "t1", nspace := some "default", labels := [], finalizers := none,
    deletionTimestamp := none }

def sampleH2O : H2O := { metadata := sampleMeta, spec := sampleSpec, status := none }

def sampleIp : IpAddr := IpAddr.v4 "10.0.0.1"

def samplePodWithIp : Pod :=
  { rendered_pod sampleSpec "t1" "default" "h2oai/h2o-open-source-k8s:latest"
      (some (official_command 50)) 0 with
    status := some { podIP := some sampleIp } }

def sampleClusterStatus : H2OClusterStatus :=
  { leader_node := "10.0.0.1:54321", healthy_nodes := ["10.0.0.1:54321"],
    unhealthy_nodes := [] }

def happyClusteringEnv : ClusteringEnv :=
  { clusteredPods := [samplePodWithIp]
    onlineRounds := fun _ _ => HttpResult.ok 204
    flatfileResp := fun _ => HttpResult.ok 200
    pollResp := fun _ => (200, sampleClusterStatus)
    patchLeaderResult := none
    createServiceResult := none }

def happyEnv : ReconcileEnv :=
  { nspace := "default"
    podApi := { createResult := fun _ => none, deleteResult := fun _ => none }
    createOrder := [0]
    clustering := happyClusteringEnv
    apiOnlineFuel := 1
    addFinalizerResult := none
    setReadyResult := none
    deleteServiceResult := none
    listPodsResult := none
    waitDeletedCompletes := true
    removeFinalizerResult := none }

/-! Theorems. -/

/-- C1: event classification is a pure function of the pair (has-finalizer,
has-deletion-timestamp): (false, false) routes to Create, (true, true) to
Delete, and the two remaining combinations to Verify, which performs no
mutating action; in particular a resource with a deletion timestamp and
without the finalizer is left untouched by the controller. -/
theorem c1_event_classification (h2o : H2O) (env : ReconcileEnv) :
    (has_h2o3_finalizer h2o = false → has_deletion_stamp h2o = false →
      examine_h2o_for_actions h2o = ControllerAction.Create)
  ∧ (has_h2o3_finalizer h2o = true → has_deletion_stamp h2o = true →
      examine_h2o_for_actions h2o = ControllerAction.Delete)
  ∧ (has_h2o3_finalizer h2o = true → has_deletion_stamp h2o = false →
      examine_h2o_for_actions h2o = ControllerAction.Verify)
  ∧ (has_h2o3_finalizer h2o = false → has_deletion_stamp h2o = true →
      examine_h2o_for_actions h2o = ControllerAction.Verify)
  ∧ (examine_h2o_for_actions h2o = ControllerAction.Verify → (reconcile env h2o).1 = [])
  ∧ (has_deletion_stamp h2o = true → has_h2o3_finalizer h2o = false →
      (reconcile env h2o).1 = []
      ∧ (reconcile env h2o).2 = ReconcileOutcome.ok { requeue_after := some 5 }) := by
  cases hf : has_h2o3_finalizer h2o <;> cases hd : has_deletion_stamp h2o <;>
    simp [examine_h2o_for_actions, reconcile, hf, hd]

/-- Witness for C1 at a concrete resource carrying a deletion timestamp and no
finalizer: the controller issues no effect. -/
theorem c1_event_classification_witness :
    has_deletion_stamp
        { metadata := { sampleMeta with deletionTimestamp := some "2021-01-01T00:00:00Z" },
          spec := sampleSpec, status := none } = true
  ∧ (reconcile happyEnv
        { metadata := { sampleMeta with deletionTimestamp := some "2021-01-01T00:00:00Z" },
          spec := sampleSpec, status := none }).1 = []
  ∧ (reconcile happyEnv
        { metadata := { sampleMeta with deletionTimestamp := some "2021-01-01T00:00:00Z" },
          spec := sampleSpec, status := none }).2
      = ReconcileOutcome.ok { requeue_after := some 5 } := by
  refine ⟨by decide, ?_⟩
  have h := (c1_event_classification
    { metadata := { sampleMeta with deletionTimestamp := some "2021-01-01T00:00:00Z" },
      spec := sampleSpec, status := none } happyEnv).2.2.2.2.2 (by decide) (by decide)
  exact ⟨h.1, h.2⟩

/-- C10: set_ready_condition always writes a status with phase Running and the
single condition Ready carrying the stringified flag, for both values of the
flag; in particular recording Ready=false still sets the phase to Running. -/
theorem c10_set_ready_condition (h2o : H2O) (ready : Bool) :
    (set_ready_condition h2o ready).status = some
      { phase := some "Running"
        conditions := some [{ condType := "Ready",
                              status := if ready then "true" else "false" }] }
  ∧ (set_ready_condition h2o ready).metadata = h2o.metadata
  ∧ (set_ready_condition h2o ready).spec = h2o.spec := by
  cases ready <;>
    simp [set_ready_condition, set_ready_condition_status, toString]

/-- A CRD as the platform may already hold it: the compiled v1beta version
served, plus an additional version that is declared but not served. -/
def crd_with_unserved_version : CustomResourceDefinition :=
  { name := "h2os.h2o.ai"
    group := "h2o.ai"
    versions := [{ name := "v1beta", served := true, storage := true },
                 { name := "v1alpha", served := false, storage := false }] }

/-- A CRD declaring a single served version different from the compiled one. -/
def crd_other_version : CustomResourceDefinition :=
  { name := "h2os.h2o.ai"
    group := "h2o.ai"
    versions := [{ name := "v1alpha", served := true, storage := true }] }

/-- C4 counterexample: an existing CRD whose served versions are exactly the
compiled set but which declares one additional non-served version.  The claim
says the bootstrap continues; the code compares the names of all declared
versions, served or not, and exits with code 1. -/
theorem c4_crd_bootstrap_counterexample :
    served_spec_versions crd_with_unserved_version = served_spec_versions construct_h2o_crd
  ∧ ensure_crd_created_present crd_with_unserved_version = BootstrapOutcome.exitProcess 1 := by
  decide

/-- C4 amended: when the CRD is already present, the bootstrap is fatal if and
only if the set of names of all versions declared on the existing CRD — the
served flag is not consulted — differs from the compiled set; when the sets are
equal the process continues to the controller. -/
theorem c4_crd_bootstrap_amended (existing : CustomResourceDefinition) :
    (ensure_crd_created_present existing = BootstrapOutcome.continueToController ↔
      spec_versions existing = spec_versions construct_h2o_crd)
  ∧ (ensure_crd_created_present existing = BootstrapOutcome.exitProcess 1 ↔
      spec_versions existing ≠ spec_versions construct_h2o_crd) := by
  have key : ensure_crd_created_present existing = BootstrapOutcome.continueToController ↔
      spec_versions existing = spec_versions construct_h2o_crd := by
    unfold ensure_crd_created_present
    split
    next h => simp [h.1.symm]
    next h =>
      constructor
      · intro hc; simp at hc
      · intro he; exact absurd ⟨he.symm, by rw [he]⟩ h
  have tot : ensure_crd_created_present existing = BootstrapOutcome.continueToController
      ∨ ensure_crd_created_present existing = BootstrapOutcome.exitProcess 1 := by
    unfold ensure_crd_created_present
    split <;> simp
  refine ⟨key, ?_, ?_⟩
  · intro hexit heq
    have := key.mpr heq
    rw [this] at hexit
    simp at hexit
  · intro hne
    rcases tot with h | h
    · exact absurd (key.mp h) hne
    · exact h

/-- Witness for C4 amended: the bootstrap exits with code 1 on a CRD declaring
only v1alpha, and continues on a CRD equal to the compiled one. -/
theorem c4_crd_bootstrap_amended_witness :
    ensure_crd_created_present crd_other_version = BootstrapOutcome.exitProcess 1
  ∧ ensure_crd_created_present construct_h2o_crd = BootstrapOutcome.continueToController :=
  ⟨(c4_crd_bootstrap_amended crd_other_version).2.mpr (by decide),
   (c4_crd_bootstrap_amended construct_h2o_crd).1.mpr (by decide)⟩

/-- C5 counterexample: the finalizer token of the modules the controller is
linked against is h2o3.h2o.ai, not h2os.h2o.ai; a resource carrying the
token h2os.h2o.ai is not recognized by the membership predicate used by
event classification. -/
theorem c5_finalizer_counterexample :
    FINALIZER_NAME ≠ "h2os.h2o.ai"
  ∧ add_finalizer_patch_tokens = ["h2o3.h2o.ai"]
  ∧ has_h2o3_finalizer
      { metadata := { sampleMeta with finalizers := some ["h2os.h2o.ai"] },
        spec := sampleSpec, status := none } = false := by
  decide

/-- C5 amended: the finalizer token that add_finalizer patches into
metadata.finalizers, and that has_h2o3_finalizer — the predicate event
classification uses — tests for membership of, is the literal string
h2o3.h2o.ai; the literal h2os.h2o.ai appears only in the operator-local
deployment module that is not wired into the controller. -/
theorem c5_finalizer_amended (h2o : H2O) :
    FINALIZER_NAME = "h2o3.h2o.ai"
  ∧ add_finalizer_patch_tokens = [FINALIZER_NAME]
  ∧ (add_finalizer h2o).metadata.finalizers = some [FINALIZER_NAME]
  ∧ has_h2o3_finalizer h2o
      = (h2o.metadata.finalizers.getD []).contains FINALIZER_NAME
  ∧ has_h2o3_finalizer (add_finalizer h2o) = true
  ∧ OPERATOR_LOCAL_FINALIZER_NAME = "h2os.h2o.ai" := by
  refine ⟨rfl, rfl, rfl, ?_, ?_, rfl⟩
  · cases h : h2o.metadata.finalizers <;> simp [has_h2o3_finalizer, h]
  · have hfin : (add_finalizer h2o).metadata.finalizers = some ["h2o3.h2o.ai"] := rfl
    simp [has_h2o3_finalizer, hfin]
    decide

/-- Rendering of an IPv4 socket address at the default port: exactly the
addr:54321 shape the specification describes. -/
theorem socketAddr_v4_eq (a : String) :
    socketAddrString (IpAddr.v4 a) H2O_DEFAULT_PORT = a ++ ":54321" := by
  show a ++ ":" ++ toString (54321 : Nat) = a ++ ":54321"
  rw [String.append_assoc]
  congr 1

/-- C3 counterexample: with an IPv6 pod IP the flatfile line is the bracketed
socket-address rendering, not the claimed ip:54321 concatenation. -/
theorem c3_flatfile_counterexample :
    create_flatfile [IpAddr.v6 "::1"] ≠ spec_flatfile [IpAddr.v6 "::1"]
  ∧ create_flatfile [IpAddr.v6 "::1"] = "[::1]:54321"
  ∧ spec_flatfile [IpAddr.v6 "::1"] = "::1:54321" := by
  decide

/-- Injectivity of the IPv4 flatfile entry rendering. -/
theorem socketAddr_v4_injective :
    Function.Injective
      (fun s : String => socketAddrString (IpAddr.v4 s) H2O_DEFAULT_PORT) := by
  intro x y hxy
  have hdata := congrArg String.data hxy
  simp only [socketAddrString, String.data_append, List.append_assoc] at hdata
  exact String.ext (List.append_cancel_right hdata)

/-- C3 amended: for every non-empty, duplicate-free list of IPv4 pod IPs the
serialized flatfile equals the newline-join of the strings ip:54321, one entry
per pod IP, each appearing exactly once; an IPv6 pod IP is rendered in the
bracketed socket-address form instead. -/
theorem c3_flatfile_amended (addrs : List String)
    (hne : addrs ≠ []) (hnd : addrs.Nodup) :
    create_flatfile (addrs.map IpAddr.v4) = spec_flatfile (addrs.map IpAddr.v4)
  ∧ ((addrs.map IpAddr.v4).map
        (fun ip => socketAddrString ip H2O_DEFAULT_PORT)).length = addrs.length
  ∧ ∀ a ∈ addrs,
      ((addrs.map IpAddr.v4).map
          (fun ip => socketAddrString ip H2O_DEFAULT_PORT)).count
        (socketAddrString (IpAddr.v4 a) H2O_DEFAULT_PORT) = 1 := by
  refine ⟨?_, by simp, ?_⟩
  · unfold create_flatfile spec_flatfile
    congr 1
    rw [List.map_map, List.map_map]
    apply List.map_congr_left
    intro a _
    show socketAddrString (IpAddr.v4 a) H2O_DEFAULT_PORT = ipAddrString (IpAddr.v4 a) ++ ":54321"
    rw [socketAddr_v4_eq]
    rfl
  · intro a ha
    rw [List.map_map]
    have h := List.count_map_of_injective (β := String) addrs
      (fun s : String => socketAddrString (IpAddr.v4 s) H2O_DEFAULT_PORT)
      socketAddr_v4_injective a
    have hcomp : ((fun ip => socketAddrString ip H2O_DEFAULT_PORT) ∘ IpAddr.v4)
        = fun s : String => socketAddrString (IpAddr.v4 s) H2O_DEFAULT_PORT := rfl
    rw [hcomp, h]
    exact List.count_eq_one_of_mem hnd ha

/-- Witness for C3 amended at a concrete two-address list. -/
theorem c3_flatfile_amended_witness :
    (["10.0.0.1", "10.0.0.2"] ≠ ([] : List String))
  ∧ (["10.0.0.1", "10.0.0.2"] : List String).Nodup
  ∧ create_flatfile (["10.0.0.1", "10.0.0.2"].map IpAddr.v4)
      = spec_flatfile (["10.0.0.1", "10.0.0.2"].map IpAddr.v4) :=
  ⟨by decide, by decide,
    (c3_flatfile_amended ["10.0.0.1", "10.0.0.2"] (by decide) (by decide)).1⟩

/-- Reconcile environment in which every Kubernetes call succeeds and every
pod HTTP call answers as in a fully healthy cluster, except that the flatfile
POST is answered with 404. -/
def c7FlatfileEnv : ReconcileEnv :=
  { happyEnv with
    clustering := { happyClusteringEnv with flatfileResp := fun _ => HttpResult.ok 404 } }

/-- Reconcile environment of a healthy creation in which the cluster-status
poll never answers 200. -/
def c8TimeoutEnv : ReconcileEnv :=
  { happyEnv with
    clustering := { happyClusteringEnv with pollResp := fun _ => (204, sampleClusterStatus) } }

/-- C9 counterexample: on a concrete fully successful Create-path event, the
inner helper computes a 10 second requeue, but the reconcile entry point
discards it and returns a 5 second requeue. -/
theorem c9_requeue_counterexample :
    (create_h2o_deployment happyEnv sampleH2O).2
      = ReconcileOutcome.ok { requeue_after := some 10 }
  ∧ (reconcile happyEnv sampleH2O).2 = ReconcileOutcome.ok { requeue_after := some 5 }
  ∧ ReconcileOutcome.ok ({ requeue_after := some 5 } : ReconcilerAction)
      ≠ ReconcileOutcome.ok { requeue_after := some 10 } := by
  decide

/-- C9 amended: every successful reconcile, on any path, returns a requeue
after 5 seconds; the Create helper computes a 10 second requeue and the Delete
helper no requeue, but the router discards both. -/
theorem c9_requeue_amended (env : ReconcileEnv) (h2o : H2O) :
    (∀ a, (reconcile env h2o).2 = ReconcileOutcome.ok a →
      a = { requeue_after := some 5 })
  ∧ (∀ a, (create_h2o_deployment env h2o).2 = ReconcileOutcome.ok a →
      a = { requeue_after := some 10 })
  ∧ (∀ a, (delete_h2o_deployment env h2o).2 = ReconcileOutcome.ok a →
      a = { requeue_after := none })
  ∧ (examine_h2o_for_actions h2o = ControllerAction.Verify →
      reconcile env h2o = ([], ReconcileOutcome.ok { requeue_after := some 5 })) := by
  refine ⟨?_, ?_, ?_, ?_⟩
  · intro a ha
    simp only [reconcile] at ha
    split at ha <;> (try split at ha) <;> simp_all
  · intro a ha
    simp only [create_h2o_deployment] at ha
    repeat' split at ha
    all_goals simp_all
  · intro a ha
    simp only [delete_h2o_deployment] at ha
    repeat' split at ha
    all_goals simp_all
  · intro hver
    simp only [reconcile, hver]

/-- Witness for C9 amended at the concrete happy-path environment. -/
theorem c9_requeue_amended_witness :
    (reconcile happyEnv sampleH2O).2
      = ReconcileOutcome.ok { requeue_after := some 5 }
  ∧ ({ requeue_after := some 5 } : ReconcilerAction) = { requeue_after := some 5 } :=
  ⟨by decide, (c9_requeue_amended happyEnv sampleH2O).1 { requeue_after := some 5 } (by decide)⟩

/-- C7 counterexample: a concrete Create-path reconcile in which the flatfile
POST of the only pod answers 404, every other interaction being healthy.  The
non-200 flatfile answer is computed into the boolean send_flatfile returns,
the caller discards it, the cluster-status poll is still issued, and the
reconciliation succeeds. -/
theorem c7_flatfile_counterexample :
    send_flatfile [sampleIp] c7FlatfileEnv.clustering.flatfileResp = some false
  ∧ Effect.getClusterStatusPoll sampleIp ∈ (reconcile c7FlatfileEnv sampleH2O).1
  ∧ (reconcile c7FlatfileEnv sampleH2O).2
      = ReconcileOutcome.ok { requeue_after := some 5 } := by
  decide

/-- Characterization of send_flatfile when no POST fails at the transport
level: it returns the conjunction of status == 200 over all pods. -/
theorem send_flatfile_of_no_transport_error (g : IpAddr → HttpResult)
    (hg : ∀ ip, g ip ≠ HttpResult.connectionError) (ips : List IpAddr) :
    send_flatfile ips g
      = some (ips.all fun ip =>
          match g ip with
          | HttpResult.ok code => code == 200
          | HttpResult.connectionError => false) := by
  unfold send_flatfile
  rw [if_neg]
  intro hany
  rw [List.any_eq_true] at hany
  rcases hany with ⟨ip, _, hip⟩
  cases hgi : g ip with
  | ok code => rw [hgi] at hip; simp at hip
  | connectionError => exact hg ip hgi

/-- C7 amended: send_flatfile computes whether every flatfile POST answered
200 (and panics only on a transport error), but cluster_pods discards that
boolean: the whole run of cluster_pods — its effect trace and its outcome —
is unchanged under any replacement of the flatfile status codes, and in
particular it proceeds to the cluster-status poll after non-200 answers. -/
theorem c7_flatfile_amended (env : ClusteringEnv) (f g : IpAddr → HttpResult)
    (label : String) (fuel : Nat)
    (hf : ∀ ip, f ip ≠ HttpResult.connectionError)
    (hg : ∀ ip, g ip ≠ HttpResult.connectionError) :
    cluster_pods { env with flatfileResp := f } label fuel
      = cluster_pods { env with flatfileResp := g } label fuel
  ∧ ∀ ips, send_flatfile ips f
      = some (ips.all fun ip =>
          match f ip with
          | HttpResult.ok code => code == 200
          | HttpResult.connectionError => false) := by
  refine ⟨?_, send_flatfile_of_no_transport_error f hf⟩
  simp only [cluster_pods, send_flatfile_of_no_transport_error f hf,
    send_flatfile_of_no_transport_error g hg]

/-- Witness for C7 amended: with one pod, a run whose flatfile POST answers
404 equals the run in which it answers 200. -/
theorem c7_flatfile_amended_witness :
    cluster_pods { happyClusteringEnv with flatfileResp := fun _ => HttpResult.ok 404 } "t1" 1
      = cluster_pods { happyClusteringEnv with flatfileResp := fun _ => HttpResult.ok 200 } "t1" 1 :=
  (c7_flatfile_amended happyClusteringEnv (fun _ => HttpResult.ok 404)
    (fun _ => HttpResult.ok 200) "t1" 1
    (fun _ h => HttpResult.noConfusion h) (fun _ h => HttpResult.noConfusion h)).1

/-- Whether an effect is a status patch of the custom resource. -/
def isStatusPatch : Effect → Bool
  | Effect.patchStatus _ _ => true
  | _ => false

/-- When no poll attempt answers 200, the polling loop runs its fuel out. -/
theorem wait_go_none_of_never (pollResp : Nat → Nat × H2OClusterStatus)
    (hnever : ∀ k, (pollResp k).1 ≠ 200) :
    ∀ fuel k, wait_h2o_clustered_go pollResp k fuel = none := by
  intro fuel
  induction fuel with
  | zero => intro k; rfl
  | succ n ih =>
    intro k
    unfold wait_h2o_clustered_go
    rw [if_neg]
    · exact ih (k + 1)
    · simp only [beq_iff_eq]
      exact hnever k

/-- The first 200 answer is authoritative: if every attempt before k0 is
non-200 and attempt k0 answers 200 within the fuel, the loop returns the body
of attempt k0. -/
theorem wait_go_first_200 (pollResp : Nat → Nat × H2OClusterStatus) :
    ∀ fuel k k0, k ≤ k0 → k0 - k < fuel →
      (∀ j, k ≤ j → j < k0 → (pollResp j).1 ≠ 200) →
      (pollResp k0).1 = 200 →
      wait_h2o_clustered_go pollResp k fuel = some (pollResp k0).2 := by
  intro fuel
  induction fuel with
  | zero =>
    intro k k0 hk hlt _ _
    exact absurd hlt (by omega)
  | succ n ih =>
    intro k k0 hk hlt hbefore h200
    unfold wait_h2o_clustered_go
    by_cases hcase : (pollResp k).1 = 200
    · have hkk : k = k0 := by
        rcases Nat.lt_or_ge k k0 with h | h
        · exact absurd hcase (hbefore k (Nat.le_refl k) h)
        · omega
      subst hkk
      rw [if_pos]
      simp only [beq_iff_eq]
      exact hcase
    · have hkne : k ≠ k0 := fun he => hcase (he ▸ h200)
      rw [if_neg]
      · apply ih (k + 1) k0
        · omega
        · omega
        · intro j hj hjlt
          exact hbefore j (by omega) hjlt
        · exact h200
      · simp only [beq_iff_eq]
        exact hcase

/-- Every effect issued by create_pods is a pod creation or a pod deletion;
in particular it never patches the resource status. -/
theorem create_pods_no_status_patch (api : PodApi) (order : List Nat)
    (spec : H2OSpec) (dn ns : String) :
    ((create_pods api order spec dn ns).effects.all
      (fun e => !isStatusPatch e)) = true := by
  rcases hres : resolve_image_command spec with e | ic
  · simp [create_pods, hres]
  · rcases ic with ⟨image, command⟩
    simp only [create_pods, hres]
    split
    · simp only [List.all_eq_true, List.mem_map]
      rintro e ⟨i, _, rfl⟩
      rfl
    · simp only [List.all_append, List.all_eq_true, List.mem_map, Bool.and_eq_true]
      constructor
      · rintro e ⟨i, _, rfl⟩
        rfl
      · rintro e ⟨p, _, rfl⟩
        rfl

/-- C8 counterexample: the cadence of the cluster-status poll is one second,
not 100 ms; and on a concrete Create-path reconcile in which the poll never
answers 200 the reconcile panics on the unwrapped timeout instead of
returning a Timeout error, so no status patch (and hence no Ready condition)
is issued. -/
theorem c8_poll_counterexample :
    STATUS_POLL_SLEEP_MS = 1000
  ∧ STATUS_POLL_SLEEP_MS ≠ 100
  ∧ (reconcile c8TimeoutEnv sampleH2O).2 = ReconcileOutcome.panic
  ∧ ((reconcile c8TimeoutEnv sampleH2O).1.all (fun e => !isStatusPatch e)) = true := by
  decide

/-- C8 amended: the poll queries the single first pod of the watched list at a
one second cadence bounded by the 180 second timeout, accepting the first 200
response as authoritative; when no attempt within the timeout answers 200 the
reconcile does not return a Timeout error but panics on the unwrapped timeout
result, and no status patch is issued, so the Ready condition is not set. -/
theorem c8_poll_amended (env : ReconcileEnv) (h2o : H2O) (nm : String)
    (pods : List Pod) (ips : List IpAddr) (r : Nat) (b : Bool)
    (hname : h2o.metadata.name = some nm)
    (hact : examine_h2o_for_actions h2o = ControllerAction.Create)
    (hcreate : (create_pods env.podApi env.createOrder h2o.spec nm env.nspace).result
        = Except.ok pods)
    (hips : pods_ips env.clustering.clusteredPods = some ips)
    (honline : wait_clustering_api_online env.clustering.onlineRounds ips 0 env.apiOnlineFuel
        = some r)
    (hflat : send_flatfile ips env.clustering.flatfileResp = some b)
    (hne : ips ≠ [])
    (hnever : ∀ k, (env.clustering.pollResp k).1 ≠ 200) :
    STATUS_POLL_SLEEP_MS = 1000
  ∧ CLUSTERING_TIMEOUT_MS = 180000
  ∧ status_poll_attempt_limit = 180
  ∧ wait_h2o_clustered_timeout env.clustering.pollResp = none
  ∧ (reconcile env h2o).2 = ReconcileOutcome.panic
  ∧ ((reconcile env h2o).1.all (fun e => !isStatusPatch e)) = true
  ∧ (∀ resp : Nat → Nat × H2OClusterStatus, ∀ k0,
      k0 < status_poll_attempt_limit →
      (∀ j, j < k0 → (resp j).1 ≠ 200) →
      (resp k0).1 = 200 →
      wait_h2o_clustered_timeout resp = some (resp k0).2) := by
  have htimeout : wait_h2o_clustered_timeout env.clustering.pollResp = none :=
    wait_go_none_of_never env.clustering.pollResp hnever status_poll_attempt_limit 0
  obtain ⟨ip0, rest, hips_cons⟩ : ∃ ip0 rest, ips = ip0 :: rest := by
    cases ips with
    | nil => exact absurd rfl hne
    | cons a l => exact ⟨a, l, rfl⟩
  subst hips_cons
  have hrec : reconcile env h2o
      = ((create_pods env.podApi env.createOrder h2o.spec nm env.nspace).effects
          ++ ((ip0 :: rest).map
                (fun ip => Effect.postFlatfile ip (create_flatfile (ip0 :: rest)))
              ++ [Effect.getClusterStatusPoll ip0]), ReconcileOutcome.panic) := by
    simp only [reconcile, hact, create_h2o_deployment, hname, hcreate, cluster_pods,
      hips, honline, hflat, htimeout]
  refine ⟨rfl, rfl, by decide, htimeout, ?_, ?_, ?_⟩
  · rw [hrec]
  · rw [hrec]
    simp only [List.all_append, Bool.and_eq_true]
    refine ⟨create_pods_no_status_patch env.podApi env.createOrder h2o.spec nm env.nspace,
      ?_, ?_⟩
    · simp only [List.all_eq_true, List.mem_map]
      rintro e ⟨ip, _, rfl⟩
      rfl
    · simp [isStatusPatch]
  · intro resp k0 hk0 hbefore h200
    exact wait_go_first_200 resp status_poll_attempt_limit 0 k0 (Nat.zero_le k0)
      (by omega) (fun j _ hj => hbefore j hj) h200

/-- Witness for C8 amended at the concrete never-200 environment. -/
theorem c8_poll_amended_witness :
    wait_h2o_clustered_timeout c8TimeoutEnv.clustering.pollResp = none
  ∧ (reconcile c8TimeoutEnv sampleH2O).2 = ReconcileOutcome.panic := by
  have hnever : ∀ k, (c8TimeoutEnv.clustering.pollResp k).1 ≠ 200 := by
    intro k
    show (204 : Nat) ≠ 200
    decide
  have h := c8_poll_amended c8TimeoutEnv sampleH2O "t1"
    [rendered_pod sampleSpec "t1" "default" "h2oai/h2o-open-source-k8s:latest"
      (some (official_command 50)) 0]
    [sampleIp] 0 true rfl (by decide) (by rfl) (by rfl) (by rfl) (by rfl)
    (by decide) hnever
  exact ⟨h.2.2.2.1, h.2.2.2.2.1⟩

/-- The error projection of the per-pod creation results is the list of the
environment answers that were errors, in the given completion order. -/
theorem results_filterMap_err (api : PodApi) (pod : Nat → Pod) (order : List Nat) :
    ((order.map (fun i =>
        match api.createResult i with
        | none => Except.ok (pod i)
        | some e => Except.error e)).filterMap (fun r =>
          match r with | Except.error e => some e | Except.ok _ => none))
      = order.filterMap api.createResult := by
  induction order with
  | nil => rfl
  | cons i rest ih =>
    cases h : api.createResult i <;>
      simp [List.map_cons, List.filterMap_cons, h, ih]

/-- The success projection of the per-pod creation results is the rendered pod
of every index whose creation succeeded, in the given completion order. -/
theorem results_filterMap_ok (api : PodApi) (pod : Nat → Pod) (order : List Nat) :
    ((order.map (fun i =>
        match api.createResult i with
        | none => Except.ok (pod i)
        | some e => Except.error e)).filterMap (fun r =>
          match r with | Except.ok p => some p | Except.error _ => none))
      = (order.filter (fun i => (api.createResult i).isNone)).map pod := by
  induction order with
  | nil => rfl
  | cons i rest ih =>
    cases h : api.createResult i <;>
      simp [List.map_cons, List.filterMap_cons, List.filter_cons, h, ih]

theorem createdPodsOf_map_createPod (f : Nat → Pod) (l : List Nat) :
    createdPodsOf (l.map (fun i => Effect.createPod (f i))) = l.map f := by
  induction l with
  | nil => rfl
  | cons i rest ih =>
    simp [createdPodsOf, List.filterMap_cons] at ih ⊢
    exact ih

theorem createdPodsOf_map_deletePod (f : Pod → String) (l : List Pod) :
    createdPodsOf (l.map (fun p => Effect.deletePod (f p))) = [] := by
  induction l with
  | nil => rfl
  | cons p rest ih => simp [createdPodsOf, List.filterMap_cons, ih]

theorem createdPodsOf_append (l1 l2 : List Effect) :
    createdPodsOf (l1 ++ l2) = createdPodsOf l1 ++ createdPodsOf l2 := by
  simp [createdPodsOf, List.filterMap_append]

theorem deletedPodNamesOf_map_createPod (f : Nat → Pod) (l : List Nat) :
    deletedPodNamesOf (l.map (fun i => Effect.createPod (f i))) = [] := by
  induction l with
  | nil => rfl
  | cons i rest ih => simp [deletedPodNamesOf, List.filterMap_cons, ih]

theorem deletedPodNamesOf_map_deletePod (f : Pod → String) (l : List Pod) :
    deletedPodNamesOf (l.map (fun p => Effect.deletePod (f p))) = l.map f := by
  induction l with
  | nil => rfl
  | cons p rest ih =>
    simp [deletedPodNamesOf, List.filterMap_cons] at ih ⊢
    exact ih

theorem deletedPodNamesOf_append (l1 l2 : List Effect) :
    deletedPodNamesOf (l1 ++ l2) = deletedPodNamesOf l1 ++ deletedPodNamesOf l2 := by
  simp [deletedPodNamesOf, List.filterMap_append]

/-- The creation effects of create_pods: one creation per index of range
nodes, in submission order, whatever the completion order and the outcomes. -/
theorem createdPodsOf_create_pods (api : PodApi) (order : List Nat) (spec : H2OSpec)
    (dn ns image : String) (command : Option String)
    (hres : resolve_image_command spec = Except.ok (image, command)) :
    createdPodsOf (create_pods api order spec dn ns).effects
      = (List.range spec.nodes).map (fun i => rendered_pod spec dn ns image command i) := by
  simp only [create_pods, hres]
  split
  · exact createdPodsOf_map_createPod _ _
  · rw [createdPodsOf_append, createdPodsOf_map_createPod, createdPodsOf_map_deletePod,
      List.append_nil]

/-- C2: for a ClusterSpec with nodes = n, create_pods renders and issues
exactly n pod creations named name-0 to name-(n-1), each labelled app=name;
if every creation succeeds it returns the n pod objects, and if any creation
fails it issues a delete for exactly the successfully created pods and returns
the aggregated list of the original creation errors, unaffected by the
responses to those compensating deletes. -/
theorem c2_create_pods_contract (api : PodApi) (order : List Nat) (spec : H2OSpec)
    (dn ns image : String) (command : Option String)
    (hres : resolve_image_command spec = Except.ok (image, command))
    (hperm : order.Perm (List.range spec.nodes)) :
    ((createdPodsOf (create_pods api order spec dn ns).effects).map
        (fun p => p.metadata.name))
      = (List.range spec.nodes).map (fun i => some (dn ++ "-" ++ toString i))
  ∧ (∀ p ∈ createdPodsOf (create_pods api order spec dn ns).effects,
      p.metadata.labels = [("app", dn)])
  ∧ ((∀ i, i < spec.nodes → api.createResult i = none) →
      deletedPodNamesOf (create_pods api order spec dn ns).effects = []
      ∧ ∃ pods, (create_pods api order spec dn ns).result = Except.ok pods
        ∧ pods.Perm ((List.range spec.nodes).map
            (fun i => rendered_pod spec dn ns image command i)))
  ∧ ((∃ i, i < spec.nodes ∧ api.createResult i ≠ none) →
      (create_pods api order spec dn ns).result
          = Except.error (order.filterMap api.createResult)
      ∧ order.filterMap api.createResult ≠ []
      ∧ deletedPodNamesOf (create_pods api order spec dn ns).effects
          = (order.filter (fun i => (api.createResult i).isNone)).map
              (fun i => dn ++ "-" ++ toString i)
      ∧ (∀ api2 : PodApi, api2.createResult = api.createResult →
          (create_pods api2 order spec dn ns).result
            = (create_pods api order spec dn ns).result)) := by
  have hrw : ∀ api3 : PodApi, create_pods api3 order spec dn ns
      = (if (order.filterMap api3.createResult).isEmpty then
          { effects := (List.range spec.nodes).map
              (fun i => Effect.createPod (rendered_pod spec dn ns image command i)),
            result := Except.ok
              ((order.filter (fun i => (api3.createResult i).isNone)).map
                (fun i => rendered_pod spec dn ns image command i)) }
        else
          { effects := (List.range spec.nodes).map
                (fun i => Effect.createPod (rendered_pod spec dn ns image command i))
              ++ ((order.filter (fun i => (api3.createResult i).isNone)).map
                  (fun i => rendered_pod spec dn ns image command i)).map
                  (fun p => Effect.deletePod (p.metadata.name.getD "")),
            result := Except.error (order.filterMap api3.createResult) }) := by
    intro api3
    simp only [create_pods, hres,
      results_filterMap_err api3 (fun i => rendered_pod spec dn ns image command i) order,
      results_filterMap_ok api3 (fun i => rendered_pod spec dn ns image command i) order]
  have hindep : ∀ api2 : PodApi, api2.createResult = api.createResult →
      (create_pods api2 order spec dn ns).result
        = (create_pods api order spec dn ns).result := by
    intro api2 h2
    rw [hrw api2, hrw api, h2]
  have hrwa := hrw api
  by_cases hempty : (order.filterMap api.createResult).isEmpty = true
  · rw [if_pos hempty] at hrwa
    refine ⟨?_, ?_, ?_, ?_⟩
    · rw [hrwa]
      show (createdPodsOf ((List.range spec.nodes).map
          (fun i => Effect.createPod (rendered_pod spec dn ns image command i)))).map
            (fun p => p.metadata.name) = _
      rw [createdPodsOf_map_createPod, List.map_map]
      apply List.map_congr_left
      intro i _
      rfl
    · intro p hp
      rw [hrwa] at hp
      replace hp : p ∈ createdPodsOf ((List.range spec.nodes).map
          (fun i => Effect.createPod (rendered_pod spec dn ns image command i))) := hp
      rw [createdPodsOf_map_createPod] at hp
      rcases List.mem_map.mp hp with ⟨i, _, rfl⟩
      rfl
    · intro hall
      have hfilter : order.filter (fun i => (api.createResult i).isNone) = order := by
        apply List.filter_eq_self.mpr
        intro i hi
        rw [hall i (List.mem_range.mp (hperm.mem_iff.mp hi))]
        rfl
      constructor
      · rw [hrwa]
        exact deletedPodNamesOf_map_createPod _ _
      · refine ⟨order.map (fun i => rendered_pod spec dn ns image command i), ?_, ?_⟩
        · rw [hrwa]
          show Except.ok ((order.filter (fun i => (api.createResult i).isNone)).map
              (fun i => rendered_pod spec dn ns image command i)) = _
          rw [hfilter]
        · exact hperm.map _
    · rintro ⟨i, hi, hne⟩
      exfalso
      rcases hcr : api.createResult i with _ | e
      · exact hne hcr
      · have hmem : e ∈ order.filterMap api.createResult :=
          List.mem_filterMap.mpr ⟨i, hperm.mem_iff.mpr (List.mem_range.mpr hi), hcr⟩
        rcases List.eq_nil_or_concat (order.filterMap api.createResult) with hnil | _
        · rw [hnil] at hmem
          cases hmem
        · rw [List.isEmpty_iff] at hempty
          rw [hempty] at hmem
          cases hmem
  · rw [if_neg hempty] at hrwa
    refine ⟨?_, ?_, ?_, ?_⟩
    · rw [hrwa]
      show (createdPodsOf ((List.range spec.nodes).map
            (fun i => Effect.createPod (rendered_pod spec dn ns image command i))
          ++ _)).map (fun p => p.metadata.name) = _
      rw [createdPodsOf_append, createdPodsOf_map_createPod, createdPodsOf_map_deletePod,
        List.append_nil, List.map_map]
      apply List.map_congr_left
      intro i _
      rfl
    · intro p hp
      rw [hrwa] at hp
      replace hp : p ∈ createdPodsOf ((List.range spec.nodes).map
            (fun i => Effect.createPod (rendered_pod spec dn ns image command i))
          ++ ((order.filter (fun i => (api.createResult i).isNone)).map
              (fun i => rendered_pod spec dn ns image command i)).map
              (fun p => Effect.deletePod (p.metadata.name.getD ""))) := hp
      rw [createdPodsOf_append, createdPodsOf_map_createPod, createdPodsOf_map_deletePod,
        List.append_nil] at hp
      rcases List.mem_map.mp hp with ⟨i, _, rfl⟩
      rfl
    · intro hall
      exfalso
      apply hempty
      rw [List.isEmpty_iff]
      apply List.filterMap_eq_nil_iff.mpr
      intro i hi
      exact hall i (List.mem_range.mp (hperm.mem_iff.mp hi))
    · intro _
      refine ⟨?_, ?_, ?_, hindep⟩
      · rw [hrwa]
      · intro hnil
        apply hempty
        rw [List.isEmpty_iff]
        exact hnil
      · rw [hrwa]
        show deletedPodNamesOf ((List.range spec.nodes).map
              (fun i => Effect.createPod (rendered_pod spec dn ns image command i))
            ++ ((order.filter (fun i => (api.createResult i).isNone)).map
                (fun i => rendered_pod spec dn ns image command i)).map
                (fun p => Effect.deletePod (p.metadata.name.getD ""))) = _
        rw [deletedPodNamesOf_append, deletedPodNamesOf_map_createPod,
          deletedPodNamesOf_map_deletePod, List.nil_append, List.map_map]
        apply List.map_congr_left
        intro i _
        rfl

/-- A pod adapter that rejects the creation of pod number 1 with a conflict
and accepts every other creation. -/
def c2FailApi : PodApi :=
  { createResult := fun i => if i == 1 then some (Error.KubeError "conflict") else none
    deleteResult := fun _ => none }

/-- A three node specification with the official image. -/
def c2Spec : H2OSpec :=
  { nodes := 3, version := some "latest", resources := sampleResources, customImage := none }

/-- Witness for C2 at a concrete three node cluster with one failed creation,
under the completion order 2, 0, 1. -/
theorem c2_create_pods_contract_witness :
    resolve_image_command c2Spec
      = Except.ok ("h2oai/h2o-open-source-k8s:latest", some (official_command 50))
  ∧ ([2, 0, 1] : List Nat).Perm (List.range 3)
  ∧ ((createdPodsOf (create_pods c2FailApi [2, 0, 1] c2Spec "t3" "default").effects).map
        (fun p => p.metadata.name))
      = (List.range 3).map (fun i => some ("t3" ++ "-" ++ toString i))
  ∧ deletedPodNamesOf (create_pods c2FailApi [2, 0, 1] c2Spec "t3" "default").effects
      = ["t3-2", "t3-0"] := by
  refine ⟨by rfl, by decide, ?_, ?_⟩
  · exact (c2_create_pods_contract c2FailApi [2, 0, 1] c2Spec "t3" "default"
      "h2oai/h2o-open-source-k8s:latest" (some (official_command 50))
      (by rfl) (by decide)).1
  · have h := ((c2_create_pods_contract c2FailApi [2, 0, 1] c2Spec "t3" "default"
      "h2oai/h2o-open-source-k8s:latest" (some (official_command 50))
      (by rfl) (by decide)).2.2.2 ⟨1, by decide, by decide⟩).2.2.1
    rw [h]
    decide

/-- C6: image and command resolution of create_pods.  A custom image is used
with its optional command verbatim, overriding any version; otherwise the
version selects the official image with the official launch command at
MaxRAMPercentage = memoryPercentage or 50 when absent; with neither, no pod
creation is issued and a user-input error is returned. -/
theorem c6_image_resolution (spec : H2OSpec) (dn ns : String) (api : PodApi)
    (order : List Nat) :
    (∀ ci, spec.customImage = some ci →
      resolve_image_command spec = Except.ok (ci.image, ci.command)
      ∧ ∀ p ∈ createdPodsOf (create_pods api order spec dn ns).effects,
          p.container.image = ci.image ∧ p.container.command = ci.command)
  ∧ (spec.customImage = none → ∀ v, spec.version = some v →
      resolve_image_command spec
        = Except.ok (OFFICIAL_IMAGE_BASE ++ v,
            some (official_command (spec.resources.memoryPercentage.getD 50)))
      ∧ OFFICIAL_IMAGE_BASE = "h2oai/h2o-open-source-k8s:"
      ∧ ∀ p ∈ createdPodsOf (create_pods api order spec dn ns).effects,
          p.container.image = OFFICIAL_IMAGE_BASE ++ v
          ∧ p.container.command
              = some (official_command (spec.resources.memoryPercentage.getD 50)))
  ∧ (spec.customImage = none → spec.version = none →
      (create_pods api order spec dn ns).effects = []
      ∧ ∃ msg, (create_pods api order spec dn ns).result
          = Except.error [Error.UserError msg]) := by
  refine ⟨?_, ?_, ?_⟩
  · intro ci hci
    have hres : resolve_image_command spec = Except.ok (ci.image, ci.command) := by
      simp [resolve_image_command, hci]
    refine ⟨hres, ?_⟩
    intro p hp
    rw [createdPodsOf_create_pods api order spec dn ns ci.image ci.command hres] at hp
    rcases List.mem_map.mp hp with ⟨i, _, rfl⟩
    exact ⟨rfl, rfl⟩
  · intro hci v hv
    have hres : resolve_image_command spec
        = Except.ok (OFFICIAL_IMAGE_BASE ++ v,
            some (official_command (spec.resources.memoryPercentage.getD 50))) := by
      simp [resolve_image_command, hci, hv]
    refine ⟨hres, rfl, ?_⟩
    intro p hp
    rw [createdPodsOf_create_pods api order spec dn ns (OFFICIAL_IMAGE_BASE ++ v)
      (some (official_command (spec.resources.memoryPercentage.getD 50))) hres] at hp
    rcases List.mem_map.mp hp with ⟨i, _, rfl⟩
    exact ⟨rfl, rfl⟩
  · intro hci hv
    constructor
    · simp [create_pods, resolve_image_command, hci, hv]
    · refine ⟨"Unable to create H2O Pods. Either H2O version or a complete custom image specification must be provided. None provided.", ?_⟩
      simp [create_pods, resolve_image_command, hci, hv]

/-- A specification carrying both a version and a custom image with a custom
command. -/
def c6CustomSpec : H2OSpec :=
  { nodes := 1, version := some "latest", resources := sampleResources,
    customImage := some { image := "example/x:1", command := some "/bin/sleep 3600" } }

/-- Witness for C6: the custom image and its command override the version. -/
theorem c6_image_resolution_witness :
    c6CustomSpec.customImage
      = some { image := "example/x:1", command := some "/bin/sleep 3600" }
  ∧ resolve_image_command c6CustomSpec
      = Except.ok ("example/x:1", some "/bin/sleep 3600") :=
  ⟨rfl,
    ((c6_image_resolution c6CustomSpec "t1" "default"
      { createResult := fun _ => none, deleteResult := fun _ => none } [0]).1
      { image := "example/x:1", command := some "/bin/sleep 3600" } rfl).1⟩
